import Mathlib

/-
Verification of the trading simulation core of the solana-trading-bot
repository: the position/risk state machine (TradingEnv,
AdvancedTradingEnv), the RiskManager, the reward-function factory, the
performance-metrics layer and the backtester windowing.  All machine
floats are modelled as exact rationals; Python dict-shaped records are
modelled as structures.
-/

set_option maxRecDepth 10000
set_option linter.unusedVariables false

namespace SolanaBot

/-! ## Risk manager (src/solana_rl_bot/risk/risk_manager.py) -/

/-- RiskConfig dataclass: the fields consumed by the functions modelled
below, with the same meanings as in the source. -/
structure RiskConfig where
  maxPositionPct : ℚ
  minPositionPct : ℚ
  stopLossPct : ℚ
  takeProfitPct : ℚ
  useTrailingStop : Bool
  trailingStopPct : ℚ
  trailingActivationPct : ℚ
  maxDrawdownPct : ℚ
  maxDailyLossPct : ℚ
  maxTradesPerDay : ℕ
  minTradeIntervalCandles : ℤ
  useVolatilityScaling : Bool
  lowVolMultiplier : ℚ
  highVolMultiplier : ℚ
  maxRiskPerTradePct : ℚ
deriving Repr, DecidableEq

/-- Default values of the RiskConfig dataclass (the 5min SOL profile). -/
def defaultRiskConfig : RiskConfig where
  maxPositionPct := 1/4
  minPositionPct := 1/10
  stopLossPct := 1/10
  takeProfitPct := 1/5
  useTrailingStop := true
  trailingStopPct := 1/20
  trailingActivationPct := 2/25
  maxDrawdownPct := 1/5
  maxDailyLossPct := 2/25
  maxTradesPerDay := 15
  minTradeIntervalCandles := 6
  useVolatilityScaling := true
  lowVolMultiplier := 3/2
  highVolMultiplier := 1/2
  maxRiskPerTradePct := 1/50

/-- Mutable per-episode state of RiskManager. -/
structure RMState where
  initialBalance : ℚ
  peakBalance : ℚ
  dailyStartBalance : ℚ
  tradesToday : ℕ
  lastTradeStep : ℤ
  entryPrice : ℚ
  highestSinceEntry : ℚ
  trailingStopActive : Bool
deriving Repr, DecidableEq

/-- RiskManager.reset: fresh per-episode state.  `last_trade_step` is
initialised to -999 exactly as in the source. -/
def RiskManager.reset (initialBalance : ℚ) : RMState where
  initialBalance := initialBalance
  peakBalance := initialBalance
  dailyStartBalance := initialBalance
  tradesToday := 0
  lastTradeStep := -999
  entryPrice := 0
  highestSinceEntry := 0
  trailingStopActive := false

/-- RiskManager.get_current_drawdown. -/
def RiskManager.getCurrentDrawdown (st : RMState) (balance : ℚ) : ℚ :=
  if st.peakBalance ≤ 0 then 0
  else (balance - st.peakBalance) / st.peakBalance

/-- RiskManager.get_daily_pnl. -/
def RiskManager.getDailyPnl (st : RMState) (balance : ℚ) : ℚ :=
  if st.dailyStartBalance ≤ 0 then 0
  else (balance - st.dailyStartBalance) / st.dailyStartBalance

/-- The reason component of the can_open_trade result (the source
returns a human-readable string; we model which branch produced it). -/
inductive TradeDeny where
  | maxDrawdownHit
  | maxDailyLossHit
  | maxTradesHit
  | minIntervalHit
  | ok
deriving Repr, DecidableEq

/-- RiskManager.can_open_trade: the four deny checks in source order. -/
def RiskManager.canOpenTrade (cfg : RiskConfig) (st : RMState) (balance : ℚ)
    (currentStep : ℤ) : Bool × TradeDeny :=
  let drawdown := RiskManager.getCurrentDrawdown st balance
  if drawdown < -cfg.maxDrawdownPct then (false, .maxDrawdownHit)
  else
    let dailyPnl := RiskManager.getDailyPnl st balance
    if dailyPnl < -cfg.maxDailyLossPct then (false, .maxDailyLossHit)
    else if st.tradesToday ≥ cfg.maxTradesPerDay then (false, .maxTradesHit)
    else
      let stepsSinceLast := currentStep - st.lastTradeStep
      if stepsSinceLast < cfg.minTradeIntervalCandles then (false, .minIntervalHit)
      else (true, .ok)

/-- RiskManager.on_trade_open. -/
def RiskManager.onTradeOpen (entryPrice : ℚ) (currentStep : ℤ) (st : RMState) : RMState :=
  { st with
    entryPrice := entryPrice
    highestSinceEntry := entryPrice
    trailingStopActive := false
    tradesToday := st.tradesToday + 1
    lastTradeStep := currentStep }

/-- RiskManager.on_trade_close. -/
def RiskManager.onTradeClose (st : RMState) : RMState :=
  { st with entryPrice := 0, highestSinceEntry := 0, trailingStopActive := false }

/-- The optional forced-close signal returned by on_price_update. -/
inductive RiskSignal where
  | stopLoss
  | takeProfit
  | trailingStop
deriving Repr, DecidableEq

/-- RiskManager.on_price_update: updates highest-since-entry, then checks
stop-loss, take-profit and the trailing stop in source order; returns the
signal together with the mutated state. -/
def RiskManager.onPriceUpdate (cfg : RiskConfig) (price : ℚ) (st : RMState) :
    Option RiskSignal × RMState :=
  if st.entryPrice ≤ 0 then (none, st)
  else
    let st1 := if price > st.highestSinceEntry
      then { st with highestSinceEntry := price } else st
    let pnlPct := (price - st1.entryPrice) / st1.entryPrice
    if pnlPct ≤ -cfg.stopLossPct then (some .stopLoss, st1)
    else if pnlPct ≥ cfg.takeProfitPct then (some .takeProfit, st1)
    else if cfg.useTrailingStop then
      let st2 := if pnlPct ≥ cfg.trailingActivationPct
        then { st1 with trailingStopActive := true } else st1
      if st2.trailingStopActive then
        let trailingStopPrice := st2.highestSinceEntry * (1 - cfg.trailingStopPct)
        if price ≤ trailingStopPrice then (some .trailingStop, st2)
        else (none, st2)
      else (none, st2)
    else (none, st1)

/-- RiskManager.calculate_position_size: volatility-scaled base size,
risk-based size, minimum of the caps and then the floor, in source
order.  `balance` and `currentPrice` are parameters of the source
function but are not read by its body. -/
def RiskManager.calculatePositionSize (cfg : RiskConfig) (balance currentPrice : ℚ)
    (volatility : Option ℚ) : ℚ :=
  let baseSize := cfg.maxPositionPct
  let baseSize :=
    match volatility with
    | some vol =>
        if cfg.useVolatilityScaling then
          let normalVol : ℚ := 47/1000
          if vol < normalVol * (7/10) then baseSize * cfg.lowVolMultiplier
          else if vol > normalVol * (13/10) then baseSize * cfg.highVolMultiplier
          else baseSize
        else baseSize
    | none => baseSize
  let riskBasedSize := cfg.maxRiskPerTradePct / cfg.stopLossPct
  let finalSize := min (min baseSize riskBasedSize) cfg.maxPositionPct
  max finalSize cfg.minPositionPct

/-! ## Long-only environment (src/solana_rl_bot/environment/trading_env.py) -/

/-- Trading state of TradingEnv: cash balance, holdings (SOL quantity),
position flag (0 = flat, 1 = long) and entry price. -/
structure TEState where
  balance : ℚ
  holdings : ℚ
  position : ℕ
  entryPrice : ℚ
deriving Repr, DecidableEq

/-- The trading-state part of TradingEnv.reset. -/
def TradingEnv.resetState (initialBalance : ℚ) : TEState where
  balance := initialBalance
  holdings := 0
  position := 0
  entryPrice := 0

/-- TradingEnv._execute_action: BUY (action 1) from flat buys a
`positionPct` fraction of the balance with the commission taken off the
purchasing power; SELL (action 2) from long liquidates the holdings with
the commission taken off the proceeds.  `positionPct` is
`calculate_position_size` when risk management is on and 1 when it is
off.  Note that the SELL branch of the source resets `holdings` and
`position` but not `entry_price`. -/
def TradingEnv.executeAction (commission positionPct : ℚ) (action : ℕ) (price : ℚ)
    (s : TEState) : TEState :=
  if action = 1 ∧ s.position = 0 then
    let tradeAmount := s.balance * positionPct
    let cost := tradeAmount * (1 - commission)
    { s with
      holdings := cost / price
      entryPrice := price
      balance := s.balance - tradeAmount
      position := 1 }
  else if action = 2 ∧ s.position = 1 then
    let revenue := s.holdings * price * (1 - commission)
    { s with
      balance := s.balance + revenue
      holdings := 0
      position := 0 }
  else s

/-- TradingEnv._get_portfolio_value: cash plus holdings at the close. -/
def TradingEnv.getPortfolioValue (s : TEState) (price : ℚ) : ℚ :=
  s.balance + s.holdings * price

/-- A run of TradingEnv._execute_action over a list of (action, close
price) pairs. -/
def TradingEnv.run (commission positionPct : ℚ) (steps : List (ℕ × ℚ))
    (s : TEState) : TEState :=
  steps.foldl (fun st ap => TradingEnv.executeAction commission positionPct ap.1 ap.2 st) s

/-- The risk-event override in TradingEnv.step: when a position is open,
on_price_update is consulted and any returned signal forces the action to
2 (SELL) regardless of the action the policy requested. -/
def TradingEnv.stepForcedAction (cfg : RiskConfig) (rm : RMState) (s : TEState)
    (price : ℚ) (requested : ℕ) : ℕ × Option RiskSignal × RMState :=
  if s.position = 1 then
    match RiskManager.onPriceUpdate cfg price rm with
    | (some sig, rm1) => (2, some sig, rm1)
    | (none, rm1) => (requested, none, rm1)
  else (requested, none, rm)

/-! ## Short-enabled environment
(src/solana_rl_bot/environment/advanced_trading_env.py) -/

/-- Trading state of AdvancedTradingEnv: holdings is signed (positive =
long, negative = short), position is -1, 0 or 1. -/
structure AEState where
  balance : ℚ
  holdings : ℚ
  position : ℤ
  positionSize : ℚ
  entryPrice : ℚ
  stopLossPrice : Option ℚ
deriving Repr, DecidableEq

/-- The trading-state part of AdvancedTradingEnv.reset. -/
def AdvancedTradingEnv.resetState (initialBalance : ℚ) : AEState where
  balance := initialBalance
  holdings := 0
  position := 0
  positionSize := 0
  entryPrice := 0
  stopLossPrice := none

/-- AdvancedTradingEnv._close_position: realises the P&L of the open
position (long: proceeds net of commission; short: buy-back cost grossed
up by commission) and resets holdings, position, position_size,
entry_price and stop_loss_price together. -/
def AdvancedTradingEnv.closePosition (commission price : ℚ) (s : AEState) : AEState :=
  if s.position = 0 then s
  else
    let s1 :=
      if s.position = 1 then
        { s with balance := s.balance + s.holdings * price * (1 - commission) }
      else
        { s with balance := s.balance - |s.holdings| * price * (1 + commission) }
    { s1 with
      holdings := 0
      position := 0
      positionSize := 0
      entryPrice := 0
      stopLossPrice := none }

/-- AdvancedTradingEnv._open_long. -/
def AdvancedTradingEnv.openLong (commission : ℚ) (enableStopLoss : Bool)
    (price size stopLossPct : ℚ) (s : AEState) : AEState :=
  if size ≤ 0 then s
  else
    let available := s.balance * size
    let cost := available * (1 - commission)
    { s with
      holdings := cost / price
      entryPrice := price
      balance := s.balance - available
      position := 1
      positionSize := size
      stopLossPrice :=
        if enableStopLoss ∧ stopLossPct > 0 then some (price * (1 - stopLossPct)) else none }

/-- AdvancedTradingEnv._open_short. -/
def AdvancedTradingEnv.openShort (commission : ℚ) (enableShort enableStopLoss : Bool)
    (price size stopLossPct : ℚ) (s : AEState) : AEState :=
  if size ≤ 0 ∨ enableShort = false then s
  else
    let available := s.balance * size
    let quantity := available / price
    { s with
      holdings := -quantity
      entryPrice := price
      balance := s.balance + available * (1 - commission)
      position := -1
      positionSize := size
      stopLossPrice :=
        if enableStopLoss ∧ stopLossPct > 0 then some (price * (1 + stopLossPct)) else none }

/-- AdvancedTradingEnv._execute_action: threshold the continuous
direction at plus and minus 0.3 into a target position, demote short to
flat when shorting is disabled, then close / open / flip. -/
def AdvancedTradingEnv.executeAction (commission : ℚ) (enableShort enableStopLoss : Bool)
    (direction size stopLossPct price : ℚ) (s : AEState) : AEState :=
  let targetPosition : ℤ :=
    if direction > 3/10 then 1 else if direction < -(3/10) then -1 else 0
  let targetPosition := if enableShort = false ∧ targetPosition = -1 then 0 else targetPosition
  if targetPosition = 0 ∧ s.position ≠ 0 then
    AdvancedTradingEnv.closePosition commission price s
  else if targetPosition = 1 ∧ s.position ≠ 1 then
    let s1 := if s.position = -1 then AdvancedTradingEnv.closePosition commission price s else s
    AdvancedTradingEnv.openLong commission enableStopLoss price size stopLossPct s1
  else if targetPosition = -1 ∧ s.position ≠ -1 then
    let s1 := if s.position = 1 then AdvancedTradingEnv.closePosition commission price s else s
    AdvancedTradingEnv.openShort commission enableShort enableStopLoss price size stopLossPct s1
  else s

/-- AdvancedTradingEnv._get_portfolio_value: long positions add the
holdings value, short positions subtract the cost to buy back
(abs(holdings) times price), flat returns the cash balance. -/
def AdvancedTradingEnv.getPortfolioValue (s : AEState) (price : ℚ) : ℚ :=
  if s.position = 1 then s.balance + s.holdings * price
  else if s.position = -1 then s.balance - |s.holdings| * price
  else s.balance

/-! ## Performance metrics (src/solana_rl_bot/backtesting/metrics.py) -/

/-- One entry of the episode trade log, as consumed by
PerformanceMetrics (the dict keys read by _calculate_trading_metrics). -/
structure TradeRec where
  action : String
  profit : ℚ
  profitPct : ℚ
deriving Repr, DecidableEq

/-- A metric value that may be the float('inf') sentinel. -/
inductive MetricVal where
  | finite (q : ℚ)
  | infinite
deriving Repr, DecidableEq

/-- The profit-factor computation of
PerformanceMetrics._calculate_trading_metrics: the key is absent (none)
when the trade log or its completed (SELL) part is empty; it is
wins/|losses| when both winning and losing completed trades exist (with
float('inf') when the losses sum to zero), and 0.0 otherwise. -/
def PerformanceMetrics.profitFactor (trades : List TradeRec) : Option MetricVal :=
  if trades.length = 0 then none
  else
    let sellTrades := trades.filter (fun t => t.action = "SELL")
    if sellTrades.length = 0 then none
    else
      let profits := sellTrades.map (fun t => t.profit)
      let winningTrades := profits.filter (fun p => p > 0)
      let losingTrades := profits.filter (fun p => p ≤ 0)
      some (
        if winningTrades.length > 0 ∧ losingTrades.length > 0 then
          let totalWins := winningTrades.sum
          let totalLosses := |losingTrades.sum|
          if totalLosses > 0 then .finite (totalWins / totalLosses) else .infinite
        else .finite 0)

/-- np.diff(values) / values[:-1] — the step returns of a value history. -/
def PerformanceMetrics.stepReturns (values : List ℚ) : List ℚ :=
  List.zipWith (fun a b => (b - a) / a) values values.tail

/-- Helper for np.maximum.accumulate. -/
def runningMaxAux (cur : ℚ) : List ℚ → List ℚ
  | [] => []
  | v :: vs => max cur v :: runningMaxAux (max cur v) vs

/-- np.maximum.accumulate — the running maximum of a value history. -/
def runningMax : List ℚ → List ℚ
  | [] => []
  | v :: vs => v :: runningMaxAux v vs

/-- Head-seeded maximum of a list (np.max on a nonempty array; 0 on an
empty one, which the source never hits because it guards emptiness). -/
def listMax : List ℚ → ℚ
  | [] => 0
  | v :: vs => vs.foldl max v

/-- Head-seeded maximum over integers. -/
def listMaxInt : List ℤ → ℤ
  | [] => 0
  | v :: vs => vs.foldl max v

/-- The drawdown series (running_max - values) / running_max of
PerformanceMetrics._calculate_drawdown_metrics. -/
def PerformanceMetrics.drawdownSeries (values : List ℚ) : List ℚ :=
  List.zipWith (fun rm v => (rm - v) / rm) (runningMax values) values

/-- max_drawdown = np.max(drawdown). -/
def PerformanceMetrics.maxDrawdown (values : List ℚ) : ℚ :=
  listMax (PerformanceMetrics.drawdownSeries values)

/-- The boolean in-drawdown mask drawdown > 0. -/
def PerformanceMetrics.inDrawdownMask (values : List ℚ) : List Bool :=
  (PerformanceMetrics.drawdownSeries values).map (fun d => decide (d > 0))

/-- Indices at which a list of integers holds a given value (np.where on
the diff arrays below). -/
def idxWhereEq (xs : List ℤ) (v : ℤ) : List ℕ :=
  (List.range xs.length).filter (fun i => xs.getD i 0 = v)

/-- np.diff of an integer list. -/
def intDiff (xs : List ℤ) : List ℤ :=
  List.zipWith (fun a b => b - a) xs xs.tail

/-- max_drawdown_duration of
PerformanceMetrics._calculate_drawdown_metrics: run starts are the
indices where np.diff([0] ++ mask) equals 1, run ends the indices where
np.diff(mask ++ [0]) equals -1, durations their elementwise difference,
and the result their maximum (0 when no step is in drawdown). -/
def PerformanceMetrics.maxDrawdownDuration (values : List ℚ) : ℤ :=
  let inDrawdown := PerformanceMetrics.inDrawdownMask values
  let maskInt : List ℤ := inDrawdown.map (fun b => if b then 1 else 0)
  if inDrawdown.any id then
    let drawdownStarts := idxWhereEq (intDiff (0 :: maskInt)) 1
    let drawdownEnds := idxWhereEq (intDiff (maskInt ++ [0])) (-1)
    if drawdownStarts.length > 0 ∧ drawdownEnds.length > 0 then
      let drawdownDurations :=
        List.zipWith (fun e s => (e : ℤ) - (s : ℤ)) drawdownEnds drawdownStarts
      listMaxInt drawdownDurations
    else 0
  else 0

/-- The length of the longest contiguous run of true entries in a mask
(the quantity the spec describes as the max drawdown duration). -/
def longestTrueRun (mask : List Bool) : ℕ :=
  (mask.foldl (fun cb b =>
    if b then (cb.1 + 1, max cb.2 (cb.1 + 1)) else (0, cb.2)) ((0 : ℕ), (0 : ℕ))).2

/-! ## Backtester (src/solana_rl_bot/backtesting/backtester.py) -/

/-- One iteration of the Backtester.run_backtest loop on the long-only
environment: read the close at the current step, execute the action,
advance the step and report info["portfolio_value"] (the value the
backtester appends to the portfolio history it hands to the metrics
layer). -/
def Backtester.stepCollect (commission positionPct : ℚ) (prices : ℕ → ℚ) (action : ℕ)
    (es : TEState × ℕ) : (TEState × ℕ) × ℚ :=
  let price := prices es.2
  let s1 := TradingEnv.executeAction commission positionPct action price es.1
  ((s1, es.2 + 1), TradingEnv.getPortfolioValue s1 (prices (es.2 + 1)))

/-- The portfolio-value history collected by Backtester.run_backtest over
a list of policy actions. -/
def Backtester.collectHistory (commission positionPct : ℚ) (prices : ℕ → ℚ) :
    List ℕ → TEState × ℕ → List ℚ
  | [], _ => []
  | a :: rest, es =>
      let r := Backtester.stepCollect commission positionPct prices a es
      r.2 :: Backtester.collectHistory commission positionPct prices rest r.1

/-- The (state, next close) trace of the same loop, for stating what the
collected values are made of. -/
def Backtester.stateTrace (commission positionPct : ℚ) (prices : ℕ → ℚ) :
    List ℕ → TEState × ℕ → List (TEState × ℚ)
  | [], _ => []
  | a :: rest, es =>
      let price := prices es.2
      let s1 := TradingEnv.executeAction commission positionPct a price es.1
      (s1, prices (es.2 + 1)) ::
        Backtester.stateTrace commission positionPct prices rest (s1, es.2 + 1)

/-- Backtester.run_backtest hands the collected history to
PerformanceMetrics; its max-drawdown output is maxDrawdown of exactly
that history. -/
def Backtester.runMaxDrawdown (commission positionPct initialBalance : ℚ)
    (prices : ℕ → ℚ) (actions : List ℕ) (startStep : ℕ) : ℚ :=
  PerformanceMetrics.maxDrawdown
    (Backtester.collectHistory commission positionPct prices actions
      (TradingEnv.resetState initialBalance, startStep))

/-- Backtester.run_backtest's step-returns input to the risk metrics is
stepReturns of exactly the collected history. -/
def Backtester.runStepReturns (commission positionPct initialBalance : ℚ)
    (prices : ℕ → ℚ) (actions : List ℕ) (startStep : ℕ) : List ℚ :=
  PerformanceMetrics.stepReturns
    (Backtester.collectHistory commission positionPct prices actions
      (TradingEnv.resetState initialBalance, startStep))

/-- Helper for Backtester.walk_forward_analysis: the while loop
`while start_idx + train_size + test_size <= n` collecting
(train_start, train_end, test_start, test_end) and advancing start_idx
by step_size.  The fuel argument only bounds the iteration count; with
`fuel = n + 1` and a positive step size it is never exhausted before the
loop condition fails. -/
def walkForwardGo (trainSize testSize stepSize n : ℕ) : ℕ → ℕ → List (ℕ × ℕ × ℕ × ℕ)
  | 0, _ => []
  | fuel + 1, startIdx =>
    if startIdx + trainSize + testSize ≤ n then
      (startIdx, startIdx + trainSize, startIdx + trainSize, startIdx + trainSize + testSize)
        :: walkForwardGo trainSize testSize stepSize n fuel (startIdx + stepSize)
    else []

/-- The train/test windows produced by Backtester.walk_forward_analysis
over `n` bars. -/
def Backtester.walkForwardWindows (trainSize testSize stepSize n : ℕ) :
    List (ℕ × ℕ × ℕ × ℕ) :=
  walkForwardGo trainSize testSize stepSize n (n + 1) 0

/-! ## Reward factory (src/solana_rl_bot/environment/rewards.py) -/

/-- Which reward implementation the factory instantiated, with the
constructor parameters it received (here: the class defaults, since the
factory is called without keyword arguments by the environments). -/
inductive RewardKind where
  | profit (holdPenalty : ℚ)
  | sharpe (riskFreeRate : ℚ) (window : ℕ) (holdPenalty : ℚ)
  | sortino (riskFreeRate : ℚ) (window : ℕ) (holdPenalty : ℚ)
  | multiObjective (profitWeight riskWeight drawdownWeight : ℚ) (window : ℕ) (holdPenalty : ℚ)
  | incremental (holdPenalty : ℚ)
deriving Repr, DecidableEq

/-- RewardFactory.create: dispatch on the reward-type name; the Bool
records whether the unknown-name warning branch was taken.  An
unrecognized name logs a warning and falls back to ProfitReward() with
its default parameters — it never raises. -/
def RewardFactory.create (rewardType : String) : RewardKind × Bool :=
  if rewardType = "profit" then (.profit (1/100), false)
  else if rewardType = "sharpe" then (.sharpe 0 50 (1/100), false)
  else if rewardType = "sortino" then (.sortino 0 50 (1/100), false)
  else if rewardType = "multi" then (.multiObjective (1/2) (3/10) (1/5) 50 (1/100), false)
  else if rewardType = "incremental" then (.incremental (1/1000), false)
  else (.profit (1/100), true)

/-- RewardFactory.available_rewards. -/
def RewardFactory.availableRewards : List String :=
  ["profit", "sharpe", "sortino", "multi", "incremental"]

/-! ## Invariants and spec-side definitions -/

/-- The inductive invariant of the long-only state machine: flat states
have zero holdings and strictly positive cash, long states have strictly
positive holdings and nonnegative cash. -/
def TradingEnv.StateInv (s : TEState) : Prop :=
  (s.position = 0 ∧ s.holdings = 0 ∧ 0 < s.balance) ∨
  (s.position = 1 ∧ 0 < s.holdings ∧ 0 ≤ s.balance)

/-- clamp(x, lo, hi) = min(max(x, lo), hi). -/
def clamp (x lo hi : ℚ) : ℚ := min (max x lo) hi

/-- Modelled from the spec's words for the refinement comparison of the
position-sizing claim: "Final size =
clamp(min(base_size, risk_based_size, max_position_pct),
min_position_pct, max_position_pct)", with base_size scaled by the
volatility multipliers exactly as §4.3 describes. -/
def Spec.claimedPositionSize (cfg : RiskConfig) (volatility : Option ℚ) : ℚ :=
  let baseSize := cfg.maxPositionPct
  let baseSize :=
    match volatility with
    | some vol =>
        if cfg.useVolatilityScaling then
          let normalVol : ℚ := 47/1000
          if vol < normalVol * (7/10) then baseSize * cfg.lowVolMultiplier
          else if vol > normalVol * (13/10) then baseSize * cfg.highVolMultiplier
          else baseSize
        else baseSize
    | none => baseSize
  let riskBasedSize := cfg.maxRiskPerTradePct / cfg.stopLossPct
  clamp (min (min baseSize riskBasedSize) cfg.maxPositionPct)
    cfg.minPositionPct cfg.maxPositionPct

/-! ## Helper lemmas -/

/-- The history the backtester collects is, element by element, the cash
balance plus holdings times close of the post-step state. -/
theorem Backtester.collectHistory_eq_trace (c pct : ℚ) (prices : ℕ → ℚ) :
    ∀ (actions : List ℕ) (es : TEState × ℕ),
      Backtester.collectHistory c pct prices actions es
        = (Backtester.stateTrace c pct prices actions es).map
            (fun sp => sp.1.balance + sp.1.holdings * sp.2) := by
  intro actions
  induction actions with
  | nil => intro es; rfl
  | cons a rest ih =>
      intro es
      simp only [Backtester.collectHistory, Backtester.stateTrace,
        Backtester.stepCollect, TradingEnv.getPortfolioValue, List.map_cons, ih]

/-- TradingEnv._execute_action preserves the long-only state invariant
for positive prices, a commission below 1 and a position fraction in
(0, 1]. -/
theorem TradingEnv.executeAction_preserves_inv
    (c pct price : ℚ) (a : ℕ) (s : TEState)
    (hc1 : c < 1) (hpct0 : 0 < pct) (hpct1 : pct ≤ 1)
    (hp : 0 < price) (h : TradingEnv.StateInv s) :
    TradingEnv.StateInv (TradingEnv.executeAction c pct a price s) := by
  unfold TradingEnv.executeAction
  by_cases h1 : a = 1 ∧ s.position = 0
  · rw [if_pos h1]
    rcases h with ⟨hpos, hh, hb⟩ | ⟨hpos, hh, hb⟩
    · right
      refine ⟨rfl, ?_, ?_⟩
      · show 0 < s.balance * pct * (1 - c) / price
        exact div_pos (mul_pos (mul_pos hb hpct0) (by linarith)) hp
      · show 0 ≤ s.balance - s.balance * pct
        nlinarith
    · exact absurd (hpos.symm.trans h1.2) (by decide)
  · rw [if_neg h1]
    by_cases h2 : a = 2 ∧ s.position = 1
    · rw [if_pos h2]
      rcases h with ⟨hpos, hh, hb⟩ | ⟨hpos, hh, hb⟩
      · exact absurd (hpos.symm.trans h2.2) (by decide)
      · left
        refine ⟨rfl, rfl, ?_⟩
        show 0 < s.balance + s.holdings * price * (1 - c)
        have := mul_pos (mul_pos hh hp) (show (0:ℚ) < 1 - c by linarith)
        linarith
    · rw [if_neg h2]
      exact h

/-- The long-only state invariant holds along every run with positive
close prices. -/
theorem TradingEnv.run_preserves_inv (c pct : ℚ) (hc1 : c < 1)
    (hpct0 : 0 < pct) (hpct1 : pct ≤ 1) :
    ∀ (steps : List (ℕ × ℚ)) (s : TEState),
      (∀ ap ∈ steps, 0 < ap.2) → TradingEnv.StateInv s →
      TradingEnv.StateInv (TradingEnv.run c pct steps s) := by
  intro steps
  induction steps with
  | nil => intro s _ h; exact h
  | cons ap rest ih =>
      intro s hpos h
      exact ih _ (fun x hx => hpos x (List.mem_cons_of_mem _ hx))
        (TradingEnv.executeAction_preserves_inv c pct ap.2 ap.1 s hc1 hpct0 hpct1
          (hpos ap (List.mem_cons_self _ _)) h)

/-! ## Claims -/

/-- C1: in both environment variants the portfolio value recorded into
the value history and reported in info is cash_balance plus
holdings times the current close (with negative holdings subtracting the
short buy-back cost), and the metrics layer's returns and drawdowns are
computed from exactly the collected value history. -/
theorem C1_portfolio_value_consistent :
    (∀ (s : TEState) (price : ℚ),
      TradingEnv.getPortfolioValue s price = s.balance + s.holdings * price)
    ∧ (∀ (s : AEState) (price : ℚ),
        (s.position = 0 ∨ s.position = 1 ∨ s.position = -1) →
        (s.position = 0 → s.holdings = 0) →
        (s.position = -1 → s.holdings ≤ 0) →
        AdvancedTradingEnv.getPortfolioValue s price = s.balance + s.holdings * price)
    ∧ (∀ (c pct B : ℚ) (prices : ℕ → ℚ) (actions : List ℕ) (startStep : ℕ),
        Backtester.collectHistory c pct prices actions (TradingEnv.resetState B, startStep)
          = (Backtester.stateTrace c pct prices actions
              (TradingEnv.resetState B, startStep)).map
              (fun sp => sp.1.balance + sp.1.holdings * sp.2)
        ∧ Backtester.runMaxDrawdown c pct B prices actions startStep
            = PerformanceMetrics.maxDrawdown
                (Backtester.collectHistory c pct prices actions
                  (TradingEnv.resetState B, startStep))
        ∧ Backtester.runStepReturns c pct B prices actions startStep
            = PerformanceMetrics.stepReturns
                (Backtester.collectHistory c pct prices actions
                  (TradingEnv.resetState B, startStep))) := by
  refine ⟨fun s price => rfl, ?_, ?_⟩
  · intro s price hvalid h0 hneg
    unfold AdvancedTradingEnv.getPortfolioValue
    rcases hvalid with h | h | h
    · rw [if_neg (by rw [h]; decide), if_neg (by rw [h]; decide), h0 h]
      ring
    · rw [if_pos h]
    · rw [if_neg (by rw [h]; decide), if_pos h, abs_of_nonpos (hneg h)]
      ring
  · intro c pct B prices actions startStep
    exact ⟨Backtester.collectHistory_eq_trace c pct prices actions _, rfl, rfl⟩

/-- C1 witness: the theorem instantiated at a flat long-only state, a
short state of the advanced environment, and a concrete two-step run. -/
theorem C1_witness :
    TradingEnv.getPortfolioValue ⟨1, 2, 0, 0⟩ 3 = 1 + 2 * 3
    ∧ AdvancedTradingEnv.getPortfolioValue ⟨50, -2, -1, 1, 100, none⟩ 10
        = 50 + (-2) * 10
    ∧ Backtester.collectHistory 0 1 (fun _ => 10) [1, 0] (TradingEnv.resetState 100, 0)
        = (Backtester.stateTrace 0 1 (fun _ => 10) [1, 0]
            (TradingEnv.resetState 100, 0)).map
            (fun sp => sp.1.balance + sp.1.holdings * sp.2) :=
  ⟨C1_portfolio_value_consistent.1 ⟨1, 2, 0, 0⟩ 3,
   C1_portfolio_value_consistent.2.1 ⟨50, -2, -1, 1, 100, none⟩ 10
     (by right; right; rfl) (by intro h; cases h) (by intro h; norm_num),
   (C1_portfolio_value_consistent.2.2 0 1 100 (fun _ => 10) [1, 0] 0).1⟩

/-- C3: in the long-only environment with the full balance committed
(risk management off, position fraction 1), a BUY at price p followed by
a SELL at the same p leaves cash of initial_balance times (1-c) squared:
the commission is charged on both the entry and the exit leg. -/
theorem C3_commission_round_trip (B c p : ℚ) (hp : p ≠ 0) :
    (TradingEnv.run c 1 [(1, p), (2, p)] (TradingEnv.resetState B)).balance
      = B * (1 - c) ^ 2 := by
  simp only [TradingEnv.run, List.foldl, TradingEnv.executeAction, TradingEnv.resetState]
  norm_num
  field_simp
  ring

/-- C3 witness: 10000 USDT round-tripped at commission 0.1% leaves
10000 times 0.999 squared. -/
theorem C3_witness :
    (TradingEnv.run (1/1000) 1 [(1, 100), (2, 100)]
      (TradingEnv.resetState 10000)).balance = 10000 * (1 - 1/1000) ^ 2 :=
  C3_commission_round_trip 10000 (1/1000) 100 (by norm_num)

/-- C8: for every balance, price and optional volatility,
calculate_position_size is the clamp of min(base, risk-based, max) to
[min_position_pct, max_position_pct], with the volatility-scaled base
and risk_based = max_risk_per_trade_pct / stop_loss_pct, for any
configuration whose minimum cap does not exceed its maximum cap. -/
theorem C8_position_size_clamp (cfg : RiskConfig) (balance price : ℚ)
    (vol : Option ℚ) (hminmax : cfg.minPositionPct ≤ cfg.maxPositionPct) :
    RiskManager.calculatePositionSize cfg balance price vol
      = Spec.claimedPositionSize cfg vol := by
  unfold RiskManager.calculatePositionSize Spec.claimedPositionSize clamp
  exact (min_eq_left (max_le (min_le_right _ _) hminmax)).symm

/-- C8 witness: the default configuration with no volatility estimate
sizes the position at the risk-based cap 0.02/0.10 = 20%. -/
theorem C8_witness :
    defaultRiskConfig.minPositionPct ≤ defaultRiskConfig.maxPositionPct
    ∧ RiskManager.calculatePositionSize defaultRiskConfig 10000 100 none
        = Spec.claimedPositionSize defaultRiskConfig none
    ∧ RiskManager.calculatePositionSize defaultRiskConfig 10000 100 none = 1/5 :=
  ⟨by norm_num [defaultRiskConfig],
   C8_position_size_clamp defaultRiskConfig 10000 100 none
     (by norm_num [defaultRiskConfig]),
   by norm_num [RiskManager.calculatePositionSize, defaultRiskConfig]⟩

/-- C9: the reward factory maps each of the five known names to its
implementation with the class-default parameters, and any other name to
the default ProfitReward with a warning — it does not raise. -/
theorem C9_reward_factory_default :
    (∀ name : String, name ∉ RewardFactory.availableRewards →
      RewardFactory.create name = (.profit (1/100), true))
    ∧ RewardFactory.create "profit" = (.profit (1/100), false)
    ∧ RewardFactory.create "sharpe" = (.sharpe 0 50 (1/100), false)
    ∧ RewardFactory.create "sortino" = (.sortino 0 50 (1/100), false)
    ∧ RewardFactory.create "multi"
        = (.multiObjective (1/2) (3/10) (1/5) 50 (1/100), false)
    ∧ RewardFactory.create "incremental" = (.incremental (1/1000), false) := by
  refine ⟨?_, rfl, rfl, rfl, rfl, rfl⟩
  intro name hmem
  unfold RewardFactory.create
  split_ifs with h1 h2 h3 h4 h5
  · exact absurd (by simp [RewardFactory.availableRewards, h1]) hmem
  · exact absurd (by simp [RewardFactory.availableRewards, h2]) hmem
  · exact absurd (by simp [RewardFactory.availableRewards, h3]) hmem
  · exact absurd (by simp [RewardFactory.availableRewards, h4]) hmem
  · exact absurd (by simp [RewardFactory.availableRewards, h5]) hmem
  · rfl

/-- C9 witness: an unrecognized name degrades to the default Profit
reward with the warning branch taken. -/
theorem C9_witness :
    "bogus" ∉ RewardFactory.availableRewards
    ∧ RewardFactory.create "bogus" = (.profit (1/100), true) :=
  ⟨by decide, C9_reward_factory_default.1 "bogus" (by decide)⟩

/-- C10: with last_trade_step at its reset value -999, can_open_trade
can never deny for the minimum-trade-interval reason at any step at
least 0 when min_trade_interval_candles is at most 999; and reset does
initialise last_trade_step to -999. -/
theorem C10_min_interval_never_denies_first_trade
    (cfg : RiskConfig) (st : RMState) (balance B : ℚ) (stp : ℤ)
    (hlast : st.lastTradeStep = -999)
    (hcfg : cfg.minTradeIntervalCandles ≤ 999)
    (hstep : 0 ≤ stp) :
    (RiskManager.canOpenTrade cfg st balance stp).2 ≠ TradeDeny.minIntervalHit
    ∧ (RiskManager.reset B).lastTradeStep = -999 := by
  refine ⟨?_, rfl⟩
  unfold RiskManager.canOpenTrade
  by_cases h1 : RiskManager.getCurrentDrawdown st balance < -cfg.maxDrawdownPct
  · simp [h1]
  · by_cases h2 : RiskManager.getDailyPnl st balance < -cfg.maxDailyLossPct
    · simp [h1, h2]
    · by_cases h3 : st.tradesToday ≥ cfg.maxTradesPerDay
      · simp [h1, h2, h3]
      · have h4 : ¬ (stp - st.lastTradeStep < cfg.minTradeIntervalCandles) := by
          rw [hlast]; omega
        simp [h1, h2, h3, h4]

/-- C10 witness: with the default configuration, a fresh reset state
allows the very first trade at step 0. -/
theorem C10_witness :
    (RiskManager.reset 10000).lastTradeStep = -999
    ∧ defaultRiskConfig.minTradeIntervalCandles ≤ 999
    ∧ (RiskManager.canOpenTrade defaultRiskConfig (RiskManager.reset 10000) 10000 0).2
        ≠ TradeDeny.minIntervalHit :=
  ⟨rfl, by decide,
   (C10_min_interval_never_denies_first_trade defaultRiskConfig
     (RiskManager.reset 10000) 10000 10000 0 rfl (by decide) (by decide)).1⟩

/-- C2 counterexample: in the long-only environment a BUY at 100
followed by a SELL at 100 leaves a state that is FLAT with zero holdings
but whose entry_price is still 100, so the claimed three-way invariant
position FLAT iff holdings = 0 iff entry_price = 0 is violated after the
first close. -/
theorem C2_counterexample :
    (TradingEnv.run (1/1000) 1 [(1, 100), (2, 100)]
        (TradingEnv.resetState 10000)).position = 0
    ∧ (TradingEnv.run (1/1000) 1 [(1, 100), (2, 100)]
        (TradingEnv.resetState 10000)).holdings = 0
    ∧ (TradingEnv.run (1/1000) 1 [(1, 100), (2, 100)]
        (TradingEnv.resetState 10000)).entryPrice = 100
    ∧ ¬((TradingEnv.run (1/1000) 1 [(1, 100), (2, 100)]
        (TradingEnv.resetState 10000)).position = 0
      → (TradingEnv.run (1/1000) 1 [(1, 100), (2, 100)]
          (TradingEnv.resetState 10000)).entryPrice = 0) := by
  norm_num [TradingEnv.run, TradingEnv.executeAction, TradingEnv.resetState]

/-- C2 amended: after every step of every action sequence the long-only
environment satisfies position FLAT iff holdings = 0 (for a positive
initial balance, commission below 1, position fraction in (0, 1] and
positive close prices), but its SELL leaves entry_price at the last
entry, so the entry_price = 0 leg fails there; in the short-enabled
environment _close_position does reset position, holdings, position
size, entry_price and stop-loss together, and reset establishes the
full invariant in both variants. -/
theorem C2_amended_invariants
    (B c pct c2 p2 : ℚ) (steps : List (ℕ × ℚ)) (s : AEState)
    (hB : 0 < B) (hc1 : c < 1) (hpct0 : 0 < pct) (hpct1 : pct ≤ 1)
    (hprices : ∀ ap ∈ steps, 0 < ap.2) :
    ((TradingEnv.run c pct steps (TradingEnv.resetState B)).position = 0
      ↔ (TradingEnv.run c pct steps (TradingEnv.resetState B)).holdings = 0)
    ∧ (s.position ≠ 0 →
        (AdvancedTradingEnv.closePosition c2 p2 s).holdings = 0
        ∧ (AdvancedTradingEnv.closePosition c2 p2 s).position = 0
        ∧ (AdvancedTradingEnv.closePosition c2 p2 s).positionSize = 0
        ∧ (AdvancedTradingEnv.closePosition c2 p2 s).entryPrice = 0
        ∧ (AdvancedTradingEnv.closePosition c2 p2 s).stopLossPrice = none)
    ∧ (s.position = 0 → AdvancedTradingEnv.closePosition c2 p2 s = s)
    ∧ ((TradingEnv.resetState B).position = 0 ∧ (TradingEnv.resetState B).holdings = 0
        ∧ (TradingEnv.resetState B).entryPrice = 0)
    ∧ ((AdvancedTradingEnv.resetState B).position = 0
        ∧ (AdvancedTradingEnv.resetState B).holdings = 0
        ∧ (AdvancedTradingEnv.resetState B).entryPrice = 0) := by
  refine ⟨?_, ?_, ?_, ⟨rfl, rfl, rfl⟩, ⟨rfl, rfl, rfl⟩⟩
  · have hinv := TradingEnv.run_preserves_inv c pct hc1 hpct0 hpct1 steps
      (TradingEnv.resetState B) hprices (Or.inl ⟨rfl, rfl, hB⟩)
    rcases hinv with ⟨hpos, hh, _⟩ | ⟨hpos, hh, _⟩
    · simp [hpos, hh]
    · rw [hpos]
      constructor
      · intro h; exact absurd h (by decide)
      · intro h; exact absurd (h ▸ hh) (by norm_num)
  · intro hne
    unfold AdvancedTradingEnv.closePosition
    rw [if_neg hne]
    by_cases hl : s.position = 1 <;> simp [hl]
  · intro h0
    unfold AdvancedTradingEnv.closePosition
    rw [if_pos h0]

/-- C2 amended witness: a one-step run and a concrete short-state
close. -/
theorem C2_amended_witness :
    ((TradingEnv.run (1/1000) 1 [(1, 100)] (TradingEnv.resetState 10000)).position = 0
      ↔ (TradingEnv.run (1/1000) 1 [(1, 100)] (TradingEnv.resetState 10000)).holdings = 0)
    ∧ ((AdvancedTradingEnv.closePosition 0 100
        (⟨200, -1, -1, 1, 100, none⟩ : AEState)).holdings = 0
      ∧ (AdvancedTradingEnv.closePosition 0 100
          (⟨200, -1, -1, 1, 100, none⟩ : AEState)).position = 0
      ∧ (AdvancedTradingEnv.closePosition 0 100
          (⟨200, -1, -1, 1, 100, none⟩ : AEState)).positionSize = 0
      ∧ (AdvancedTradingEnv.closePosition 0 100
          (⟨200, -1, -1, 1, 100, none⟩ : AEState)).entryPrice = 0
      ∧ (AdvancedTradingEnv.closePosition 0 100
          (⟨200, -1, -1, 1, 100, none⟩ : AEState)).stopLossPrice = none) := by
  have h := C2_amended_invariants 10000 (1/1000) 1 0 100 [(1, 100)]
    (⟨200, -1, -1, 1, 100, none⟩ : AEState) (by norm_num) (by norm_num) one_pos le_rfl
    (by intro ap hap; simp only [List.mem_singleton] at hap; subst hap; norm_num)
  exact ⟨h.1, h.2.1 (by decide)⟩

/-- C4 counterexample: with train 300, test 100, step 100 over 1000
bars the loop condition start + 300 + 100 <= 1000 admits start = 600 as
well, so 7 windows are produced (the last testing [900:1000]), not the 6
the claim states. -/
theorem C4_counterexample :
    (Backtester.walkForwardWindows 300 100 100 1000).length = 7
    ∧ (7 : ℕ) ≠ 6
    ∧ (Backtester.walkForwardWindows 300 100 100 1000).map (fun w => (w.2.2.1, w.2.2.2))
        ≠ [(300, 400), (400, 500), (500, 600), (600, 700), (700, 800), (800, 900)] := by
  decide

/-- C4 amended: the same parameters produce exactly 7 windows with the
non-overlapping, contiguous test slices [300:400] through [900:1000]. -/
theorem C4_amended_windows :
    Backtester.walkForwardWindows 300 100 100 1000
      = [(0, 300, 300, 400), (100, 400, 400, 500), (200, 500, 500, 600),
         (300, 600, 600, 700), (400, 700, 700, 800), (500, 800, 800, 900),
         (600, 900, 900, 1000)]
    ∧ (Backtester.walkForwardWindows 300 100 100 1000).map (fun w => (w.2.2.1, w.2.2.2))
        = [(300, 400), (400, 500), (500, 600), (600, 700), (700, 800), (800, 900),
           (900, 1000)] := by
  decide

/-- C5 counterexample: with the default configuration — whose trailing
parameters are exactly the claimed 0.08 activation and 0.05 stop — a
price update to 120 on an entry at 100 hits the take-profit check first
(pnl 20% is at least take_profit_pct 20%), so the update returns
TAKE_PROFIT and never activates the trailing stop, contradicting the
claimed TRAILING_STOP sequence. -/
theorem C5_counterexample :
    defaultRiskConfig.trailingActivationPct = 2/25
    ∧ defaultRiskConfig.trailingStopPct = 1/20
    ∧ (RiskManager.onPriceUpdate defaultRiskConfig 120
        (RiskManager.onTradeOpen 100 0 (RiskManager.reset 10000))).1
      = some RiskSignal.takeProfit
    ∧ (RiskManager.onPriceUpdate defaultRiskConfig 120
        (RiskManager.onTradeOpen 100 0 (RiskManager.reset 10000))).2.trailingStopActive
      = false
    ∧ some RiskSignal.takeProfit ≠ some RiskSignal.trailingStop := by
  refine ⟨rfl, rfl, ?_, ?_, by simp⟩ <;>
    norm_num [RiskManager.onPriceUpdate, RiskManager.onTradeOpen, RiskManager.reset,
      defaultRiskConfig]

/-- C5 amended: for an entry at 100 with trailing activation 0.08 and
trailing stop 0.05, provided the trailing stop is enabled, the stop loss
fraction is nonnegative and take_profit_pct exceeds 20% (so that it does
not pre-empt at 120), the update at 120 returns no signal while setting
highest-since-entry to 120 and activating the trailing stop, and the
subsequent update at 113 < 120 times 0.95 = 114 returns TRAILING_STOP,
which TradingEnv.step turns into a forced SELL that closes the position
regardless of the requested action. -/
theorem C5_amended_trailing_stop
    (cfg : RiskConfig) (stp : ℤ) (B : ℚ)
    (htr : cfg.useTrailingStop = true)
    (htsp : cfg.trailingStopPct = 1/20)
    (hact : cfg.trailingActivationPct = 2/25)
    (hsl : 0 ≤ cfg.stopLossPct)
    (htp : 1/5 < cfg.takeProfitPct) :
    (RiskManager.onPriceUpdate cfg 120
        (RiskManager.onTradeOpen 100 stp (RiskManager.reset B))).1 = none
    ∧ (RiskManager.onPriceUpdate cfg 120
        (RiskManager.onTradeOpen 100 stp (RiskManager.reset B))).2.highestSinceEntry = 120
    ∧ (RiskManager.onPriceUpdate cfg 120
        (RiskManager.onTradeOpen 100 stp (RiskManager.reset B))).2.trailingStopActive = true
    ∧ (RiskManager.onPriceUpdate cfg 113
        ((RiskManager.onPriceUpdate cfg 120
          (RiskManager.onTradeOpen 100 stp (RiskManager.reset B))).2)).1
      = some RiskSignal.trailingStop
    ∧ (∀ (s : TEState) (requested : ℕ), s.position = 1 →
        (TradingEnv.stepForcedAction cfg
          ((RiskManager.onPriceUpdate cfg 120
            (RiskManager.onTradeOpen 100 stp (RiskManager.reset B))).2) s 113 requested).1
          = 2
        ∧ (TradingEnv.stepForcedAction cfg
            ((RiskManager.onPriceUpdate cfg 120
              (RiskManager.onTradeOpen 100 stp (RiskManager.reset B))).2) s 113
              requested).2.1
          = some RiskSignal.trailingStop)
    ∧ (∀ (s : TEState) (c pct : ℚ), s.position = 1 →
        (TradingEnv.executeAction c pct 2 113 s).position = 0) := by
  have hA : ¬ ((1:ℚ)/5 ≤ -cfg.stopLossPct) := by intro hcon; linarith
  have hB : ¬ (cfg.takeProfitPct ≤ (1:ℚ)/5) := by intro hcon; linarith
  have h1 : RiskManager.onPriceUpdate cfg 120
      (RiskManager.onTradeOpen 100 stp (RiskManager.reset B))
      = (none, { RiskManager.onTradeOpen 100 stp (RiskManager.reset B) with
          highestSinceEntry := 120, trailingStopActive := true }) := by
    unfold RiskManager.onPriceUpdate RiskManager.onTradeOpen RiskManager.reset
    norm_num [htr, htsp, hact]
    rw [if_neg hA, if_neg hB]
  have hC : ¬ ((13:ℚ)/100 ≤ -cfg.stopLossPct) := by intro hcon; linarith
  have hD : ¬ (cfg.takeProfitPct ≤ (13:ℚ)/100) := by intro hcon; linarith
  have h2 : (RiskManager.onPriceUpdate cfg 113
      ((RiskManager.onPriceUpdate cfg 120
        (RiskManager.onTradeOpen 100 stp (RiskManager.reset B))).2)).1
      = some RiskSignal.trailingStop := by
    rw [h1]
    unfold RiskManager.onPriceUpdate RiskManager.onTradeOpen RiskManager.reset
    norm_num [htr, htsp, hact]
    rw [if_neg hC, if_neg hD]
  refine ⟨by rw [h1], by rw [h1], by rw [h1], h2, ?_, ?_⟩
  · intro s requested hpos
    unfold TradingEnv.stepForcedAction
    rw [if_pos hpos]
    rcases hmatch : RiskManager.onPriceUpdate cfg 113
        ((RiskManager.onPriceUpdate cfg 120
          (RiskManager.onTradeOpen 100 stp (RiskManager.reset B))).2) with ⟨sig, rm1⟩
    rw [hmatch] at h2
    simp at h2
    subst h2
    simp
  · intro s c pct hpos
    unfold TradingEnv.executeAction
    rw [if_neg (by simp), if_pos (by exact ⟨rfl, hpos⟩)]

/-- C5 amended witness: the default configuration with take-profit
raised to 25%, entry at 100, updates at 120 then 113, and a concrete
open long state whose requested HOLD is overridden. -/
theorem C5_amended_witness :
    (RiskManager.onPriceUpdate { defaultRiskConfig with takeProfitPct := 1/4 } 120
        (RiskManager.onTradeOpen 100 0 (RiskManager.reset 10000))).1 = none
    ∧ (RiskManager.onPriceUpdate { defaultRiskConfig with takeProfitPct := 1/4 } 120
        (RiskManager.onTradeOpen 100 0 (RiskManager.reset 10000))).2.trailingStopActive
      = true
    ∧ (RiskManager.onPriceUpdate { defaultRiskConfig with takeProfitPct := 1/4 } 113
        ((RiskManager.onPriceUpdate { defaultRiskConfig with takeProfitPct := 1/4 } 120
          (RiskManager.onTradeOpen 100 0 (RiskManager.reset 10000))).2)).1
      = some RiskSignal.trailingStop
    ∧ (TradingEnv.stepForcedAction { defaultRiskConfig with takeProfitPct := 1/4 }
        ((RiskManager.onPriceUpdate { defaultRiskConfig with takeProfitPct := 1/4 } 120
          (RiskManager.onTradeOpen 100 0 (RiskManager.reset 10000))).2)
        (⟨0, 1, 1, 100⟩ : TEState) 113 0).1 = 2 := by
  have h := C5_amended_trailing_stop { defaultRiskConfig with takeProfitPct := 1/4 } 0 10000
    rfl rfl rfl (by norm_num [defaultRiskConfig]) (by norm_num)
  exact ⟨h.1, h.2.2.1, h.2.2.2.1, (h.2.2.2.2.1 (⟨0, 1, 1, 100⟩ : TEState) 0 rfl).1⟩

/-- C6 counterexample: a trade log with one completed winning trade and
no losing trades gets profit factor 0.0 from the else branch of the
source, not the infinite sentinel the claim requires. -/
theorem C6_counterexample :
    PerformanceMetrics.profitFactor [⟨"SELL", 5, 1/20⟩] = some (.finite 0)
    ∧ some (MetricVal.finite 0) ≠ some MetricVal.infinite := by
  refine ⟨by norm_num [PerformanceMetrics.profitFactor], by simp⟩

/-- C6 amended: for every trade log with at least one completed (SELL)
trade and no losing completed trade, the computed profit factor is the
finite value 0.0 (the infinite sentinel is produced only when winning
and losing trades both exist and the losing profits sum to zero). -/
theorem C6_amended_profit_factor_zero (trades : List TradeRec)
    (hsell : (trades.filter (fun t => t.action = "SELL")).length > 0)
    (hnoloss : ((trades.filter (fun t => t.action = "SELL")).map (fun t => t.profit)).filter
        (fun p => p ≤ 0) = []) :
    PerformanceMetrics.profitFactor trades = some (.finite 0) := by
  unfold PerformanceMetrics.profitFactor
  rw [if_neg (by intro h; rw [List.length_eq_zero] at h; rw [h] at hsell; simp at hsell)]
  rw [if_neg (by omega)]
  dsimp only
  rw [if_neg (by intro hcon; rw [hnoloss] at hcon; simp at hcon)]

/-- C6 amended witness: the single-winning-trade log evaluated through
the amended theorem. -/
theorem C6_amended_witness :
    PerformanceMetrics.profitFactor [⟨"SELL", 5, 1/20⟩] = some (.finite 0) :=
  C6_amended_profit_factor_zero [⟨"SELL", 5, 1/20⟩] (by decide)
    (by norm_num)

/-- C7 counterexample: on [100,110,90,95,105] the in-drawdown mask is
[false,false,true,true,true] — three in-drawdown steps, the final 105
still being below the running peak 110 — and the longest contiguous
strictly-positive-drawdown run has length 3, while the code reports a
max drawdown duration of 2 (it takes end index minus start index), so
the claim's characterisation of the duration as that run length over
two in-drawdown steps is false. -/
theorem C7_counterexample :
    PerformanceMetrics.maxDrawdownDuration [100, 110, 90, 95, 105] = 2
    ∧ longestTrueRun (PerformanceMetrics.inDrawdownMask [100, 110, 90, 95, 105]) = 3
    ∧ (PerformanceMetrics.inDrawdownMask [100, 110, 90, 95, 105]).count true = 3
    ∧ (2 : ℤ) ≠ 3 := by
  refine ⟨?_, ?_, ?_, by decide⟩ <;>
    norm_num [PerformanceMetrics.maxDrawdownDuration, PerformanceMetrics.inDrawdownMask,
      PerformanceMetrics.drawdownSeries, runningMax, runningMaxAux, idxWhereEq, intDiff,
      listMaxInt, longestTrueRun, List.range, List.range.loop, List.count]

/-- C7 amended: the value series [100,110,90,95,105] yields
max_drawdown = (110-90)/110 = 2/11 and a reported max drawdown duration
of 2, the run-length-detection value end minus start, which here is one
less than the number of steps of the longest strictly-positive-drawdown
run. -/
theorem C7_amended_drawdown :
    PerformanceMetrics.maxDrawdown [100, 110, 90, 95, 105] = 2/11
    ∧ PerformanceMetrics.maxDrawdownDuration [100, 110, 90, 95, 105] = 2
    ∧ PerformanceMetrics.maxDrawdownDuration [100, 110, 90, 95, 105]
        = (longestTrueRun (PerformanceMetrics.inDrawdownMask [100, 110, 90, 95, 105]) : ℤ)
          - 1 := by
  refine ⟨?_, ?_, ?_⟩ <;>
    norm_num [PerformanceMetrics.maxDrawdown, PerformanceMetrics.maxDrawdownDuration,
      PerformanceMetrics.inDrawdownMask, PerformanceMetrics.drawdownSeries, runningMax,
      runningMaxAux, idxWhereEq, intDiff, listMaxInt, listMax, longestTrueRun,
      List.range, List.range.loop]

end SolanaBot
